import Mathlib

/-!
Shallow embedding of the authorization and identity core of the
`bafl_backend` repository: the data model (`src/db/models`), the
repositories (`src/db/repositories`), the permission service
(`src/services/permission_service.py`), the auth service
(`src/services/auth_service.py`), the auth dependencies
(`src/api/v1/dependencies/auth.py`) and the user deletion endpoint
(`src/api/v1/endpoints/users.py`).

Database rows are plain structures, the database session is an explicit
`DB` record of row lists, SQLAlchemy `query(...).filter(...).first()` is
`List.find?`, and an HTTP exception is an `Except` error value.  Fresh
randomness (the opaque refresh-token string of `secrets.token_urlsafe`)
and the current clock (`datetime.utcnow`) are passed in as explicit
arguments.
-/

namespace Bafl

/-- `UserRole` enum from `src/db/models/user.py`. -/
inductive UserRole
  | admin
  | user
  | coach
deriving DecidableEq, Repr

/-- `User` row from `src/db/models/user.py` (the columns the core reads). -/
structure User where
  id : Nat
  username : String
  hashed_password : String
  role : UserRole
  is_active : Bool
deriving DecidableEq, Repr

/-- `Coach` row from `src/db/models/coach.py` (the columns the core reads). -/
structure Coach where
  id : Nat
  username : String
  password : String
  is_active : Bool
deriving DecidableEq, Repr

/-- `Permission` row from `src/db/models/permission.py`. -/
structure Permission where
  id : Nat
  permission_name : String
deriving DecidableEq, Repr

/-- `UserPermission` row from `src/db/models/permission.py`: a permission
assignment targeting exactly one of a user or a coach. -/
structure UserPermission where
  user_id : Option Nat
  coach_id : Option Nat
  permission_id : Nat
  assigned_by : Option Nat
deriving DecidableEq, Repr

/-- `RefreshToken` row from `src/db/models/user.py`.  Time is modelled as
a `Nat` number of days. -/
structure RefreshToken where
  token : String
  user_id : Option Nat
  coach_id : Option Nat
  expires_at : Nat
  is_revoked : Bool
deriving DecidableEq, Repr

/-- The database session: the tables the authorization core touches. -/
structure DB where
  users : List User
  coaches : List Coach
  permissions : List Permission
  user_permissions : List UserPermission
  refresh_tokens : List RefreshToken
deriving DecidableEq, Repr

/-- `settings.REFRESH_TOKEN_EXPIRE_DAYS` default from `src/core/config.py`. -/
def REFRESH_TOKEN_EXPIRE_DAYS : Nat := 7

namespace UserRepository

/-- `UserRepository.get_by_id` from `src/db/repositories/user_repository.py`. -/
def get_by_id (db : DB) (user_id : Nat) : Option User :=
  db.users.find? (fun u => u.id == user_id)

/-- `UserRepository.get_by_username`. -/
def get_by_username (db : DB) (username : String) : Option User :=
  db.users.find? (fun u => u.username == username)

end UserRepository

namespace CoachRepository

/-- `CoachRepository.get_by_id` from `src/db/repositories/coach_repository.py`. -/
def get_by_id (db : DB) (coach_id : Nat) : Option Coach :=
  db.coaches.find? (fun c => c.id == coach_id)

/-- `CoachRepository.get_by_username`. -/
def get_by_username (db : DB) (username : String) : Option Coach :=
  db.coaches.find? (fun c => c.username == username)

end CoachRepository

namespace PermissionRepository

/-- `PermissionRepository.get_by_id` from
`src/db/repositories/permission_repository.py`. -/
def get_by_id (db : DB) (permission_id : Nat) : Option Permission :=
  db.permissions.find? (fun p => p.id == permission_id)

/-- `PermissionRepository.get_by_name`. -/
def get_by_name (db : DB) (name : String) : Option Permission :=
  db.permissions.find? (fun p => p.permission_name == name)

end PermissionRepository

namespace UserPermissionRepository

/-- `UserPermissionRepository.get_user_permissions`: all assignment rows
whose `user_id` column equals the given user id. -/
def get_user_permissions (db : DB) (user_id : Nat) : List UserPermission :=
  db.user_permissions.filter (fun a => a.user_id == some user_id)

/-- The conditional filters of `UserPermissionRepository.has_permission` /
`revoke_permission`: a filter on `user_id` is added only when the argument
is not `None`, likewise for `coach_id`. -/
def matchesTarget (user_id coach_id : Option Nat) (a : UserPermission) : Bool :=
  (match user_id with
   | none => true
   | some uid => a.user_id == some uid) &&
  (match coach_id with
   | none => true
   | some cid => a.coach_id == some cid)

/-- `UserPermissionRepository.has_permission`: `query.first() is not None`. -/
def has_permission (db : DB) (permission_id : Nat)
    (user_id coach_id : Option Nat) : Bool :=
  db.user_permissions.any
    (fun a => a.permission_id == permission_id && matchesTarget user_id coach_id a)

/-- `UserPermissionRepository.assign_permission`: inserts one new
assignment row (the caller has already validated the target). -/
def assign_permission (db : DB) (permission_id : Nat) (assigned_by : Option Nat)
    (user_id coach_id : Option Nat) : DB :=
  { db with user_permissions :=
      db.user_permissions ++
        [{ user_id := user_id, coach_id := coach_id,
           permission_id := permission_id, assigned_by := assigned_by }] }

/-- `UserPermissionRepository.revoke_permission`: deletes the first
matching assignment row and reports whether one was found. -/
def revoke_permission (db : DB) (permission_id : Nat)
    (user_id coach_id : Option Nat) : Bool × DB :=
  match db.user_permissions.find?
      (fun a => a.permission_id == permission_id && matchesTarget user_id coach_id a) with
  | none => (false, db)
  | some row =>
      (true, { db with user_permissions := db.user_permissions.erase row })

end UserPermissionRepository

namespace RefreshTokenRepository

/-- `RefreshTokenRepository.get_by_token`. -/
def get_by_token (db : DB) (token : String) : Option RefreshToken :=
  db.refresh_tokens.find? (fun r => r.token == token)

/-- Flip `is_revoked` on the first row carrying the given token string
(the row `get_by_token` returns). -/
def markRevokedFirst : List RefreshToken → String → List RefreshToken
  | [], _ => []
  | r :: rest, token =>
      if r.token == token then { r with is_revoked := true } :: rest
      else r :: markRevokedFirst rest token

/-- `RefreshTokenRepository.revoke`: looks the token up; when found, sets
its `is_revoked` flag and returns `true`, otherwise returns `false`. -/
def revoke (db : DB) (token : String) : Bool × DB :=
  match get_by_token db token with
  | some _ => (true, { db with refresh_tokens := markRevokedFirst db.refresh_tokens token })
  | none => (false, db)

/-- `RefreshTokenRepository.create`: persists a new refresh token for
exactly one principal kind.  The freshly generated opaque string and the
current time are explicit arguments; `none` is the `ValueError` raised
when both or neither target ids are supplied. -/
def create (db : DB) (token : String) (now : Nat)
    (user_id coach_id : Option Nat) : Option (RefreshToken × DB) :=
  if (user_id.isNone && coach_id.isNone) || (user_id.isSome && coach_id.isSome) then
    none
  else
    let r : RefreshToken :=
      { token := token, user_id := user_id, coach_id := coach_id,
        expires_at := now + REFRESH_TOKEN_EXPIRE_DAYS, is_revoked := false }
    some (r, { db with refresh_tokens := db.refresh_tokens ++ [r] })

end RefreshTokenRepository

/- `PermissionType` enum values from `src/db/models/permission.py`. -/
namespace PermissionType

def CREATE_USER : String := "create_user"
def CREATE_COACH : String := "create_coach"
def CREATE_ADMIN : String := "create_admin"
def DELETE_USER : String := "delete_user"
def DELETE_COACH : String := "delete_coach"
def DELETE_ADMIN : String := "delete_admin"
def VIEW_ALL_USERS : String := "view_all_users"
def EDIT_ALL_USERS : String := "edit_all_users"
def VIEW_OWN_PROFILE : String := "view_own_profile"
def EDIT_OWN_PROFILE : String := "edit_own_profile"
def ASSIGN_PERMISSIONS : String := "assign_permissions"
def REVOKE_PERMISSIONS : String := "revoke_permissions"
def VIEW_PERMISSIONS : String := "view_permissions"
def PHYSICAL_SESSIONS_VIEW : String := "physical_sessions_view"
def PHYSICAL_SESSIONS_EDIT : String := "physical_sessions_edit"
def PHYSICAL_SESSIONS_ADD : String := "physical_sessions_add"

end PermissionType

/-- Lexicographic comparison of character lists by Unicode code point:
the order Python uses on `str` (case-sensitive).  Defined structurally so
that it evaluates inside the kernel. -/
def charListLe : List Char → List Char → Bool
  | [], _ => true
  | _ :: _, [] => false
  | a :: as, b :: bs =>
      if a < b then true
      else if b < a then false
      else charListLe as bs

/-- Lexicographic `≤` on strings (case-sensitive, by code point). -/
def strLe (a b : String) : Bool := charListLe a.data b.data

/-- `strLe` as a proposition, for use with `List.insertionSort`. -/
def StrLe (a b : String) : Prop := strLe a b = true

instance : DecidableRel StrLe :=
  fun a b => inferInstanceAs (Decidable (strLe a b = true))

theorem charListLe_total : ∀ as bs, charListLe as bs = true ∨ charListLe bs as = true
  | [], _ => Or.inl rfl
  | _ :: _, [] => Or.inr rfl
  | a :: as, b :: bs => by
      rcases lt_trichotomy a b with h | h | h
      · left; simp [charListLe, h]
      · subst h
        rcases charListLe_total as bs with h' | h'
        · left; simp [charListLe, h']
        · right; simp [charListLe, h']
      · right; simp [charListLe, h]

theorem charListLe_trans : ∀ as bs cs, charListLe as bs = true →
    charListLe bs cs = true → charListLe as cs = true
  | [], _, _, _, _ => rfl
  | a :: as, [], _, h, _ => by simp [charListLe] at h
  | _ :: _, _ :: _, [], _, h => by simp [charListLe] at h
  | a :: as, b :: bs, c :: cs, h1, h2 => by
      by_cases hab : a < b
      · by_cases hbc : b < c
        · simp [charListLe, hab.trans hbc]
        · by_cases hcb : c < b
          · simp [charListLe, hcb] at h2
            exact absurd h2 hbc
          · have : b = c := le_antisymm (not_lt.mp hcb) (not_lt.mp hbc)
            subst this
            simp [charListLe, hab]
      · by_cases hba : b < a
        · simp [charListLe, hab, hba] at h1
        · have hab' : a = b := le_antisymm (not_lt.mp hba) (not_lt.mp hab)
          subst hab'
          simp only [charListLe, if_neg (lt_irrefl a)] at h1
          by_cases hac : a < c
          · simp [charListLe, hac]
          · by_cases hca : c < a
            · simp [charListLe, hca] at h2
              exact absurd h2 hac
            · simp only [charListLe, if_neg hac, if_neg hca] at h2 ⊢
              exact charListLe_trans as bs cs h1 h2

theorem charListLe_antisymm : ∀ as bs, charListLe as bs = true →
    charListLe bs as = true → as = bs
  | [], [], _, _ => rfl
  | [], _ :: _, _, h => by simp [charListLe] at h
  | _ :: _, [], h, _ => by simp [charListLe] at h
  | a :: as, b :: bs, h1, h2 => by
      by_cases hab : a < b
      · simp [charListLe, hab] at h2
        exact absurd hab (asymm h2)
      · by_cases hba : b < a
        · simp [charListLe, hab, hba] at h1
        · have : a = b := le_antisymm (not_lt.mp hba) (not_lt.mp hab)
          subst this
          simp only [charListLe, if_neg (lt_irrefl a)] at h1 h2
          rw [charListLe_antisymm as bs h1 h2]

instance : IsTotal String StrLe := ⟨fun a b => charListLe_total a.data b.data⟩

instance : IsTrans String StrLe :=
  ⟨fun a b c h1 h2 => charListLe_trans a.data b.data c.data h1 h2⟩

instance : IsAntisymm String StrLe := by
  constructor
  intro a b h1 h2
  cases a; cases b
  exact congrArg String.mk (charListLe_antisymm _ _ h1 h2)

namespace PermissionService

/-- `PermissionService.ROLE_BASE_PERMISSIONS` from
`src/services/permission_service.py`: the constant per-role base
permission tuples (the dictionary covers every role, so the `.get`
fallback to the empty tuple is never taken). -/
def ROLE_BASE_PERMISSIONS : UserRole → List String
  | UserRole.admin =>
      [PermissionType.CREATE_USER, PermissionType.CREATE_COACH,
       PermissionType.CREATE_ADMIN, PermissionType.DELETE_USER,
       PermissionType.DELETE_COACH, PermissionType.DELETE_ADMIN,
       PermissionType.VIEW_ALL_USERS, PermissionType.EDIT_ALL_USERS,
       PermissionType.ASSIGN_PERMISSIONS, PermissionType.REVOKE_PERMISSIONS,
       PermissionType.VIEW_PERMISSIONS, PermissionType.VIEW_OWN_PROFILE,
       PermissionType.EDIT_OWN_PROFILE, PermissionType.PHYSICAL_SESSIONS_VIEW,
       PermissionType.PHYSICAL_SESSIONS_EDIT, PermissionType.PHYSICAL_SESSIONS_ADD]
  | UserRole.user =>
      [PermissionType.VIEW_OWN_PROFILE, PermissionType.EDIT_OWN_PROFILE,
       PermissionType.PHYSICAL_SESSIONS_VIEW, PermissionType.PHYSICAL_SESSIONS_EDIT,
       PermissionType.PHYSICAL_SESSIONS_ADD]
  | UserRole.coach =>
      [PermissionType.VIEW_OWN_PROFILE, PermissionType.EDIT_OWN_PROFILE,
       PermissionType.PHYSICAL_SESSIONS_VIEW, PermissionType.PHYSICAL_SESSIONS_EDIT,
       PermissionType.PHYSICAL_SESSIONS_ADD]

/-- The permission names of the user's explicit assignment rows:
`assignment.permission.permission_name` resolved through the
`UserPermission → Permission` foreign key. -/
def assignedPermissionNames (db : DB) (user_id : Nat) : List String :=
  (UserPermissionRepository.get_user_permissions db user_id).filterMap
    (fun a => (db.permissions.find? (fun p => p.id == a.permission_id)).map
      (fun p => p.permission_name))

/-- `PermissionService.get_user_permissions`: the set union of the
role-derived base names and the explicitly assigned names, returned
sorted by the permission name string.  The Python code builds a `set`
and applies `sorted`; a deduplicated, `≤`-sorted list is the same
canonical form. -/
def get_user_permissions (db : DB) (u : User) : List String :=
  List.insertionSort StrLe
    ((ROLE_BASE_PERMISSIONS u.role ++ assignedPermissionNames db u.id).dedup)

/-- `PermissionService.has_permission`: membership of the target name in
the resolved permission set. -/
def has_permission (db : DB) (u : User) (permission : String) : Bool :=
  (get_user_permissions db u).contains permission

/-- `PermissionService.get_create_permission_for_role`. -/
def get_create_permission_for_role : UserRole → Option String
  | UserRole.user => some PermissionType.CREATE_USER
  | UserRole.coach => some PermissionType.CREATE_COACH
  | UserRole.admin => some PermissionType.CREATE_ADMIN

/-- `PermissionService.get_delete_permission_for_role`. -/
def get_delete_permission_for_role : UserRole → Option String
  | UserRole.user => some PermissionType.DELETE_USER
  | UserRole.coach => some PermissionType.DELETE_COACH
  | UserRole.admin => some PermissionType.DELETE_ADMIN

/-- `PermissionService.can_create_role`. -/
def can_create_role (db : DB) (creator : User) (target_role : UserRole) : Bool :=
  match get_create_permission_for_role target_role with
  | none => false
  | some required => has_permission db creator required

/-- `PermissionService.can_delete_user`: the deleter must hold the
delete permission keyed by the target's role.  The self-protection check
is not in this function. -/
def can_delete_user (db : DB) (deleter target_user : User) : Bool :=
  match get_delete_permission_for_role target_user.role with
  | none => false
  | some required => has_permission db deleter required

/-- `PermissionService.can_manage_permissions`: rejects self-management,
non-admin managers, and managers lacking `assign_permissions`, in that
order. -/
def can_manage_permissions (db : DB) (manager target_user : User) : Bool :=
  if manager.id == target_user.id then false
  else if manager.role != UserRole.admin then false
  else if !(has_permission db manager PermissionType.ASSIGN_PERMISSIONS) then false
  else true

/-- Error outcomes of the permission assignment service calls:
`badRequest` is an HTTP 400 (validation or conflict, told apart by the
detail string) and `notFound` an HTTP 404. -/
inductive AssignErr
  | badRequest (detail : String)
  | notFound (detail : String)
deriving DecidableEq, Repr

/-- The `if user_id == 0: user_id = None` coercion at the top of
`assign_permission_by_id` and `revoke_permission_by_id`. -/
def normalizeTargetId (x : Option Nat) : Option Nat :=
  if x == some 0 then none else x

/-- `PermissionService.assign_permission_by_id`.  Returns the outcome and
the resulting database; every error leaves the database unchanged
(the Python code raises before any write). -/
def assign_permission_by_id (db : DB) (permission_id : Nat) (assigner : User)
    (user_id coach_id : Option Nat) : Except AssignErr Unit × DB :=
  let user_id := normalizeTargetId user_id
  let coach_id := normalizeTargetId coach_id
  if user_id.isNone == coach_id.isNone then
    (Except.error (AssignErr.badRequest "Provide exactly one of user_id or coach_id"), db)
  else
    match PermissionRepository.get_by_id db permission_id with
    | none => (Except.error (AssignErr.notFound "Permission not found"), db)
    | some permission =>
        if UserPermissionRepository.has_permission db permission_id user_id coach_id then
          (Except.error (AssignErr.badRequest "Permission already assigned"), db)
        else
          (Except.ok (),
           UserPermissionRepository.assign_permission db permission.id
             (some assigner.id) user_id coach_id)

/-- `PermissionService.revoke_permission_by_id`. -/
def revoke_permission_by_id (db : DB) (permission_id : Nat) (revoker : User)
    (user_id coach_id : Option Nat) : Except AssignErr Unit × DB :=
  let user_id := normalizeTargetId user_id
  let coach_id := normalizeTargetId coach_id
  if user_id.isNone == coach_id.isNone then
    (Except.error (AssignErr.badRequest "Provide exactly one of user_id or coach_id"), db)
  else
    match PermissionRepository.get_by_id db permission_id with
    | none => (Except.error (AssignErr.notFound "Permission not found"), db)
    | some permission =>
        match UserPermissionRepository.revoke_permission db permission.id user_id coach_id with
        | (false, _) =>
            (Except.error (AssignErr.badRequest "Permission not assigned to target"), db)
        | (true, db') => (Except.ok (), db')

end PermissionService

/-- The `("user", user) | ("coach", coach)` pairs returned by
`AuthService.authenticate_user`. -/
inductive Principal
  | user (u : User)
  | coach (c : Coach)
deriving DecidableEq, Repr

namespace AuthService

/-- `AuthService.authenticate_user` from `src/services/auth_service.py`.
Password hash verification (`PasswordHandler.verify`, a bcrypt check) is
abstracted as the `verify plain hashed` argument. -/
def authenticate_user (verify : String → String → Bool) (db : DB)
    (username password : String) : Option Principal :=
  match UserRepository.get_by_username db username with
  | some user =>
      if !(verify password user.hashed_password) then none
      else if !user.is_active then none
      else some (Principal.user user)
  | none =>
      match CoachRepository.get_by_username db username with
      | none => none
      | some coach =>
          if !(verify password coach.password) then none
          else if !coach.is_active then none
          else some (Principal.coach coach)

/-- `AuthService.refresh_tokens`.  The fresh opaque string for
the replacement token (`secrets.token_urlsafe`) and the current time
are explicit arguments; errors are HTTP 401 detail strings (the access
token of the returned pair is stateless and omitted — the claim concerns
the refresh-token state).  On success the result is the new refresh
token string and the updated database. -/
def refresh_tokens (db : DB) (now : Nat) (refresh_token : String)
    (newToken : String) : Except String (String × DB) :=
  match RefreshTokenRepository.get_by_token db refresh_token with
  | none => Except.error "Invalid refresh token"
  | some token_obj =>
      if token_obj.is_revoked then Except.error "Invalid refresh token"
      else if token_obj.expires_at < now then Except.error "Refresh token expired"
      else
        match token_obj.user_id with
        | some uid =>
            match UserRepository.get_by_id db uid with
            | none => Except.error "User not found or inactive"
            | some user =>
                if !user.is_active then Except.error "User not found or inactive"
                else
                  let db1 := (RefreshTokenRepository.revoke db refresh_token).2
                  match RefreshTokenRepository.create db1 newToken now (some uid) none with
                  | none => Except.error "Unable to issue refresh token"
                  | some (r, db2) => Except.ok (r.token, db2)
        | none =>
            match token_obj.coach_id with
            | some cid =>
                match CoachRepository.get_by_id db cid with
                | none => Except.error "Coach not found or inactive"
                | some coach =>
                    if !coach.is_active then Except.error "Coach not found or inactive"
                    else
                      let db1 := (RefreshTokenRepository.revoke db refresh_token).2
                      match RefreshTokenRepository.create db1 newToken now none (some cid) with
                      | none => Except.error "Unable to issue refresh token"
                      | some (r, db2) => Except.ok (r.token, db2)
            | none => Except.error "Invalid refresh token subject"

/-- `AuthService.logout`: revokes the presented refresh token and
reports the repository's boolean. -/
def logout (db : DB) (refresh_token : String) : Bool × DB :=
  RefreshTokenRepository.revoke db refresh_token

end AuthService

/-- The claims of a decoded access token that `get_current_identity`
reads (`payload.get` yields `none` for an absent claim). -/
structure TokenPayload where
  subject_type : Option String
  user_id : Option Nat
  coach_id : Option Nat
deriving DecidableEq, Repr

/-- Error outcomes of the auth dependencies: HTTP 401 (could not
validate credentials) and HTTP 403 with a detail string. -/
inductive AuthErr
  | unauthenticated
  | forbidden (detail : String)
deriving DecidableEq, Repr

/-- `AuthenticatedIdentity` from `src/api/v1/dependencies/auth.py`. -/
structure AuthenticatedIdentity where
  subject_type : String
  user : Option User := none
  coach : Option Coach := none
deriving DecidableEq, Repr

/-- `get_current_identity` from `src/api/v1/dependencies/auth.py`.
Token decoding (`TokenHandler.decode_token`) is abstracted as the
already-computed `decoded` argument, `none` standing for a `JWTError`. -/
def get_current_identity (decoded : Option TokenPayload) (db : DB) :
    Except AuthErr AuthenticatedIdentity :=
  match decoded with
  | none => Except.error AuthErr.unauthenticated
  | some payload =>
      if !(payload.subject_type == some "user" || payload.subject_type == some "coach") then
        Except.error AuthErr.unauthenticated
      else if payload.subject_type == some "user" then
        match payload.user_id with
        | none => Except.error AuthErr.unauthenticated
        | some uid =>
            match UserRepository.get_by_id db uid with
            | none => Except.error AuthErr.unauthenticated
            | some u =>
                if !u.is_active then
                  Except.error (AuthErr.forbidden "Inactive user account")
                else
                  Except.ok { subject_type := "user", user := some u, coach := none }
      else
        match payload.coach_id with
        | none => Except.error AuthErr.unauthenticated
        | some cid =>
            match CoachRepository.get_by_id db cid with
            | none => Except.error AuthErr.unauthenticated
            | some c =>
                if !c.is_active then
                  Except.error (AuthErr.forbidden "Inactive coach account")
                else
                  Except.ok { subject_type := "coach", user := none, coach := some c }

/-- `get_current_user` from `src/api/v1/dependencies/auth.py`: narrows
the resolved identity to its User variant. -/
def get_current_user (identity : AuthenticatedIdentity) : Except AuthErr User :=
  match identity.user with
  | none => Except.error (AuthErr.forbidden "User credentials required")
  | some u => Except.ok u

namespace UserService

/-- `UserService.delete_user` from `src/services/user_service.py`: the
self-deletion guard, then the repository delete.  The error is the HTTP
400 detail string. -/
def delete_user (db : DB) (target_user deleter : User) : Except String DB :=
  if target_user.id == deleter.id then
    Except.error "Cannot delete your own account"
  else
    Except.ok { db with users := db.users.erase target_user }

end UserService

/-- Outcomes of the `DELETE /users/{user_id}` endpoint. -/
inductive DeleteResult
  | notFound (detail : String)
  | forbidden (detail : String)
  | badRequest (detail : String)
  | ok (db : DB)
deriving DecidableEq, Repr

/-- `delete_user` endpoint from `src/api/v1/endpoints/users.py`: target
lookup (404), then the `can_delete_user` permission check (403), then
`UserService.delete_user` (which raises 400 on self-deletion). -/
def delete_user_endpoint (db : DB) (user_id : Nat) (current_user : User) :
    DeleteResult :=
  match UserRepository.get_by_id db user_id with
  | none => DeleteResult.notFound ("User with ID " ++ toString user_id ++ " not found")
  | some target_user =>
      if !(PermissionService.can_delete_user db current_user target_user) then
        DeleteResult.forbidden
          (match PermissionService.get_delete_permission_for_role target_user.role with
           | some required => "Missing required permission: " ++ required
           | none => "You do not have permission to delete this user")
      else
        match UserService.delete_user db target_user current_user with
        | Except.error detail => DeleteResult.badRequest detail
        | Except.ok db' => DeleteResult.ok db'

/-! Concrete fixtures used to instantiate the theorems below. -/

/-- A `delete_user` permission row. -/
def exPermDU : Permission := { id := 1, permission_name := "delete_user" }

/-- A regular user holding one explicit `delete_user` assignment. -/
def exUserU : User :=
  { id := 2, username := "u", hashed_password := "h",
    role := UserRole.user, is_active := true }

/-- Database with `exUserU` and one explicit assignment of `exPermDU`. -/
def exDb2 : DB :=
  { users := [exUserU], coaches := [], permissions := [exPermDU],
    user_permissions :=
      [{ user_id := some 2, coach_id := none, permission_id := 1, assigned_by := some 1 }],
    refresh_tokens := [] }

/-! ## Claim theorems -/

/-- C2: for every user, `get_user_permissions` returns exactly the union
of the constant base permission set for the user's role and the names of
the permissions explicitly assigned to that user, with no duplicates,
sorted lexicographically ascending as case-sensitive strings; in
particular, for a user with role `user` and one explicit assignment of
`delete_user`, the result is exactly the role-user base set united with
`delete_user`. -/
theorem get_user_permissions_union_sorted :
    (∀ (db : DB) (u : User),
        (PermissionService.get_user_permissions db u).Sorted StrLe ∧
        (PermissionService.get_user_permissions db u).Nodup ∧
        (∀ s : String,
          s ∈ PermissionService.get_user_permissions db u ↔
            (s ∈ PermissionService.ROLE_BASE_PERMISSIONS u.role ∨
             s ∈ PermissionService.assignedPermissionNames db u.id))) ∧
    PermissionService.get_user_permissions exDb2 exUserU =
      ["delete_user", "edit_own_profile", "physical_sessions_add",
       "physical_sessions_edit", "physical_sessions_view", "view_own_profile"] := by
  constructor
  · intro db u
    refine ⟨List.sorted_insertionSort StrLe _, ?_, ?_⟩
    · exact ((List.perm_insertionSort StrLe _).nodup_iff).mpr (List.nodup_dedup _)
    · intro s
      unfold PermissionService.get_user_permissions
      rw [(List.perm_insertionSort StrLe _).mem_iff, List.mem_dedup, List.mem_append]
  · rfl

/-- C3: `can_manage_permissions manager target` is true exactly when the
manager is a different principal, has the admin role, and holds
`assign_permissions`; in particular it is always false on a principal
and itself. -/
theorem can_manage_permissions_iff :
    (∀ (db : DB) (manager target_user : User),
        PermissionService.can_manage_permissions db manager target_user = true ↔
          (manager.id ≠ target_user.id ∧ manager.role = UserRole.admin ∧
           PermissionService.has_permission db manager
             PermissionType.ASSIGN_PERMISSIONS = true)) ∧
    (∀ (db : DB) (a : User),
        PermissionService.can_manage_permissions db a a = false) := by
  constructor
  · intro db manager target_user
    unfold PermissionService.can_manage_permissions
    by_cases h1 : manager.id = target_user.id <;>
      by_cases h2 : manager.role = UserRole.admin <;>
        by_cases h3 : PermissionService.has_permission db manager
          PermissionType.ASSIGN_PERMISSIONS = true <;>
          simp [h1, h2, h3]
  · intro db a
    simp [PermissionService.can_manage_permissions]

/-- A regular user with no delete permission, alone in its database. -/
def exSelfUser : User :=
  { id := 1, username := "alice", hashed_password := "h",
    role := UserRole.user, is_active := true }

/-- Database holding only `exSelfUser`. -/
def exSelfDb : DB :=
  { users := [exSelfUser], coaches := [], permissions := [],
    user_permissions := [], refresh_tokens := [] }

/-- An admin (whose role-derived base set contains every delete
permission), alone in its database. -/
def exAdmin : User :=
  { id := 1, username := "root", hashed_password := "h",
    role := UserRole.admin, is_active := true }

/-- Database holding only `exAdmin`. -/
def exAdminDb : DB :=
  { users := [exAdmin], coaches := [], permissions := [],
    user_permissions := [], refresh_tokens := [] }

/-- C1 counterexample: a self-targeted delete request by a principal
lacking the required delete permission is answered by the *permission*
rejection (HTTP 403 `Missing required permission: delete_user`), not by
the self-deletion rejection (HTTP 400 `Cannot delete your own account`).
The endpoint therefore runs the permission check first, refuting the
claim that the self-deletion rejection is enforced prior to any
permission check. -/
theorem delete_user_permission_check_runs_first :
    exSelfUser.id = 1 ∧
    delete_user_endpoint exSelfDb 1 exSelfUser =
      DeleteResult.forbidden "Missing required permission: delete_user" :=
  ⟨rfl, rfl⟩

/-- C1 amended: every delete request in which the deleter and the target
are the same principal is rejected and no user is deleted, regardless of
the permissions the deleter holds; but the permission check runs before
the self-deletion guard: a self-deleter holding the required permission
receives the self-deletion rejection, while one lacking it receives the
permission rejection. -/
theorem delete_user_self_always_rejected :
    ∀ (db : DB) (user_id : Nat) (current target : User),
      UserRepository.get_by_id db user_id = some target →
      target.id = current.id →
      (∀ db', delete_user_endpoint db user_id current ≠ DeleteResult.ok db') ∧
      (PermissionService.can_delete_user db current target = true →
        delete_user_endpoint db user_id current =
          DeleteResult.badRequest "Cannot delete your own account") ∧
      (PermissionService.can_delete_user db current target = false →
        ∃ d, delete_user_endpoint db user_id current = DeleteResult.forbidden d) := by
  intro db user_id current target hfound hself
  unfold delete_user_endpoint
  rw [hfound]
  by_cases hperm : PermissionService.can_delete_user db current target = true
  · refine ⟨?_, ?_, ?_⟩
    · intro db'
      simp only [hperm, Bool.not_true, Bool.false_eq_true, if_false]
      unfold UserService.delete_user
      simp [hself]
    · intro _
      simp only [hperm, Bool.not_true, Bool.false_eq_true, if_false]
      unfold UserService.delete_user
      simp [hself]
    · intro hcontra
      rw [hperm] at hcontra
      cases hcontra
  · have hperm' : PermissionService.can_delete_user db current target = false :=
      Bool.not_eq_true _ ▸ (Bool.eq_false_iff.mpr hperm)
    refine ⟨?_, ?_, ?_⟩
    · intro db'
      simp [hperm']
    · intro hcontra
      rw [hperm'] at hcontra
      cases hcontra
    · intro _
      simp [hperm']

/-- C1 witness: an admin with the full delete permission set attempting
to delete its own account is rejected with the self-deletion error. -/
theorem delete_user_self_always_rejected_witness :
    UserRepository.get_by_id exAdminDb 1 = some exAdmin ∧
    exAdmin.id = 1 ∧
    PermissionService.can_delete_user exAdminDb exAdmin exAdmin = true ∧
    delete_user_endpoint exAdminDb 1 exAdmin =
      DeleteResult.badRequest "Cannot delete your own account" :=
  ⟨rfl, rfl, by rfl,
   (delete_user_self_always_rejected exAdminDb 1 exAdmin exAdmin rfl rfl).2.1 (by rfl)⟩

/-- An inactive user, for the 403 branch of identity resolution. -/
def exInactiveUser : User :=
  { id := 9, username := "dormant", hashed_password := "h",
    role := UserRole.user, is_active := false }

/-- Database holding only `exInactiveUser`. -/
def exInactiveDb : DB :=
  { users := [exInactiveUser], coaches := [], permissions := [],
    user_permissions := [], refresh_tokens := [] }

/-- An active coach, for coach-token resolution. -/
def exCoach : Coach :=
  { id := 3, username := "carol", password := "h", is_active := true }

/-- Database holding only `exCoach`. -/
def exCoachDb : DB :=
  { users := [], coaches := [exCoach], permissions := [],
    user_permissions := [], refresh_tokens := [] }

/-- C4: identity resolution fails with Unauthenticated (401) when the
token fails to decode, the `subject_type` claim is not exactly `user` or
`coach`, the corresponding id claim is absent, or no principal with that
id exists; it fails with Forbidden (403), a distinct error, when the
principal exists but is inactive; otherwise it returns an identity
carrying exactly one of user or coach. -/
theorem get_current_identity_cases :
    ∀ db : DB,
      (get_current_identity none db = Except.error AuthErr.unauthenticated) ∧
      (∀ p : TokenPayload, p.subject_type ≠ some "user" →
        p.subject_type ≠ some "coach" →
        get_current_identity (some p) db = Except.error AuthErr.unauthenticated) ∧
      (∀ p : TokenPayload, p.subject_type = some "user" → p.user_id = none →
        get_current_identity (some p) db = Except.error AuthErr.unauthenticated) ∧
      (∀ (p : TokenPayload) (uid : Nat), p.subject_type = some "user" →
        p.user_id = some uid → UserRepository.get_by_id db uid = none →
        get_current_identity (some p) db = Except.error AuthErr.unauthenticated) ∧
      (∀ (p : TokenPayload) (uid : Nat) (u : User), p.subject_type = some "user" →
        p.user_id = some uid → UserRepository.get_by_id db uid = some u →
        u.is_active = false →
        get_current_identity (some p) db =
          Except.error (AuthErr.forbidden "Inactive user account")) ∧
      (∀ (p : TokenPayload) (uid : Nat) (u : User), p.subject_type = some "user" →
        p.user_id = some uid → UserRepository.get_by_id db uid = some u →
        u.is_active = true →
        get_current_identity (some p) db =
          Except.ok { subject_type := "user", user := some u, coach := none }) ∧
      (∀ p : TokenPayload, p.subject_type = some "coach" → p.coach_id = none →
        get_current_identity (some p) db = Except.error AuthErr.unauthenticated) ∧
      (∀ (p : TokenPayload) (cid : Nat), p.subject_type = some "coach" →
        p.coach_id = some cid → CoachRepository.get_by_id db cid = none →
        get_current_identity (some p) db = Except.error AuthErr.unauthenticated) ∧
      (∀ (p : TokenPayload) (cid : Nat) (c : Coach), p.subject_type = some "coach" →
        p.coach_id = some cid → CoachRepository.get_by_id db cid = some c →
        c.is_active = false →
        get_current_identity (some p) db =
          Except.error (AuthErr.forbidden "Inactive coach account")) ∧
      (∀ (p : TokenPayload) (cid : Nat) (c : Coach), p.subject_type = some "coach" →
        p.coach_id = some cid → CoachRepository.get_by_id db cid = some c →
        c.is_active = true →
        get_current_identity (some p) db =
          Except.ok { subject_type := "coach", user := none, coach := some c }) ∧
      (∀ d : String, AuthErr.forbidden d ≠ AuthErr.unauthenticated) ∧
      (∀ (decoded : Option TokenPayload) (ident : AuthenticatedIdentity),
        get_current_identity decoded db = Except.ok ident →
        (ident.user.isSome = true ∧ ident.coach = none) ∨
        (ident.user = none ∧ ident.coach.isSome = true)) := by
  intro db
  refine ⟨rfl, ?_, ?_, ?_, ?_, ?_, ?_, ?_, ?_, ?_, ?_, ?_⟩
  · intro p h1 h2
    simp [get_current_identity, h1, h2]
  · intro p h1 h2
    simp [get_current_identity, h1, h2]
  · intro p uid h1 h2 h3
    simp [get_current_identity, h1, h2, h3]
  · intro p uid u h1 h2 h3 h4
    simp [get_current_identity, h1, h2, h3, h4]
  · intro p uid u h1 h2 h3 h4
    simp [get_current_identity, h1, h2, h3, h4]
  · intro p h1 h2
    simp [get_current_identity, h1, h2]
  · intro p cid h1 h2 h3
    simp [get_current_identity, h1, h2, h3]
  · intro p cid c h1 h2 h3 h4
    simp [get_current_identity, h1, h2, h3, h4]
  · intro p cid c h1 h2 h3 h4
    simp [get_current_identity, h1, h2, h3, h4]
  · intro d h
    cases h
  · intro decoded ident h
    match decoded with
    | none => simp [get_current_identity] at h
    | some p =>
        by_cases hu : p.subject_type = some "user"
        · simp only [get_current_identity, hu] at h
          match huid : p.user_id with
          | none => simp [huid] at h
          | some uid =>
              simp only [huid] at h
              match hlook : UserRepository.get_by_id db uid with
              | none => simp [hlook] at h
              | some u =>
                  simp only [hlook] at h
                  by_cases hact : u.is_active <;> simp [hact] at h
                  left
                  rw [← h]
                  exact ⟨rfl, rfl⟩
        · by_cases hc : p.subject_type = some "coach"
          · simp only [get_current_identity, hu, hc] at h
            match hcid : p.coach_id with
            | none => simp [hcid] at h
            | some cid =>
                simp only [hcid] at h
                match hlook : CoachRepository.get_by_id db cid with
                | none => simp [hlook] at h
                | some c =>
                    simp only [hlook] at h
                    by_cases hact : c.is_active <;> simp [hact] at h
                    right
                    rw [← h]
                    exact ⟨rfl, rfl⟩
          · simp [get_current_identity, hu, hc] at h

/-- C4 witness: a decoded user token for an existing but inactive user
resolves to the Forbidden (403) error, not Unauthenticated. -/
theorem get_current_identity_cases_witness :
    get_current_identity
        (some { subject_type := some "user", user_id := some 9, coach_id := none })
        exInactiveDb =
      Except.error (AuthErr.forbidden "Inactive user account") :=
  ((get_current_identity_cases exInactiveDb).2.2.2.2.1
    { subject_type := some "user", user_id := some 9, coach_id := none }
    9 exInactiveUser rfl rfl rfl rfl)

/-- C5: an identity resolved from a coach token always fails
`get_current_user` with Forbidden (`User credentials required`) and never
yields a User; `get_current_user` returns a User exactly when the
identity carries the user variant. -/
theorem get_current_user_requires_user_variant :
    (∀ (p : TokenPayload) (db : DB) (ident : AuthenticatedIdentity),
        p.subject_type = some "coach" →
        get_current_identity (some p) db = Except.ok ident →
        get_current_user ident =
          Except.error (AuthErr.forbidden "User credentials required")) ∧
    (∀ (ident : AuthenticatedIdentity) (u : User),
        get_current_user ident = Except.ok u ↔ ident.user = some u) := by
  constructor
  · intro p db ident hst h
    have hne : p.subject_type ≠ some "user" := by
      rw [hst]
      decide
    simp only [get_current_identity, hst, hne] at h
    match hcid : p.coach_id with
    | none => simp [hcid] at h
    | some cid =>
        simp only [hcid] at h
        match hlook : CoachRepository.get_by_id db cid with
        | none => simp [hlook] at h
        | some c =>
            simp only [hlook] at h
            by_cases hact : c.is_active <;> simp [hact] at h
            rw [← h]
            rfl
  · intro ident u
    unfold get_current_user
    match h : ident.user with
    | none => simp
    | some u' => simp

/-- C5 witness: the identity resolved from a coach token for the active
coach `exCoach` is rejected by `get_current_user` with Forbidden. -/
theorem get_current_user_requires_user_variant_witness :
    get_current_identity
        (some { subject_type := some "coach", user_id := none, coach_id := some 3 })
        exCoachDb =
      Except.ok { subject_type := "coach", user := none, coach := some exCoach } ∧
    get_current_user { subject_type := "coach", user := none, coach := some exCoach } =
      Except.error (AuthErr.forbidden "User credentials required") :=
  ⟨rfl,
   get_current_user_requires_user_variant.1
     { subject_type := some "coach", user_id := none, coach_id := some 3 }
     exCoachDb
     { subject_type := "coach", user := none, coach := some exCoach }
     rfl rfl⟩

/-- C8: `assign_permission_by_id` fails with a validation error when,
after the zero-target coercion, both or neither target ids are present
(a client input error distinct from NotFound and Conflict); with
NotFound when no permission with the given id exists; and with Conflict
when the target already holds the permission.  It creates an assignment
row exactly when one target is present, the permission exists, and it
is not already held; every failure leaves the database unchanged. -/
theorem assign_permission_by_id_contract :
    ∀ (db : DB) (permission_id : Nat) (assigner : User)
      (user_id coach_id : Option Nat),
      ((PermissionService.normalizeTargetId user_id).isNone =
          (PermissionService.normalizeTargetId coach_id).isNone →
        PermissionService.assign_permission_by_id db permission_id assigner
            user_id coach_id =
          (Except.error (PermissionService.AssignErr.badRequest
            "Provide exactly one of user_id or coach_id"), db)) ∧
      ((PermissionService.normalizeTargetId user_id).isNone ≠
          (PermissionService.normalizeTargetId coach_id).isNone →
        PermissionRepository.get_by_id db permission_id = none →
        PermissionService.assign_permission_by_id db permission_id assigner
            user_id coach_id =
          (Except.error (PermissionService.AssignErr.notFound
            "Permission not found"), db)) ∧
      (∀ p : Permission,
        (PermissionService.normalizeTargetId user_id).isNone ≠
          (PermissionService.normalizeTargetId coach_id).isNone →
        PermissionRepository.get_by_id db permission_id = some p →
        UserPermissionRepository.has_permission db permission_id
            (PermissionService.normalizeTargetId user_id)
            (PermissionService.normalizeTargetId coach_id) = true →
        PermissionService.assign_permission_by_id db permission_id assigner
            user_id coach_id =
          (Except.error (PermissionService.AssignErr.badRequest
            "Permission already assigned"), db)) ∧
      (∀ p : Permission,
        (PermissionService.normalizeTargetId user_id).isNone ≠
          (PermissionService.normalizeTargetId coach_id).isNone →
        PermissionRepository.get_by_id db permission_id = some p →
        UserPermissionRepository.has_permission db permission_id
            (PermissionService.normalizeTargetId user_id)
            (PermissionService.normalizeTargetId coach_id) = false →
        PermissionService.assign_permission_by_id db permission_id assigner
            user_id coach_id =
          (Except.ok (),
           { db with user_permissions := db.user_permissions ++
              [{ user_id := PermissionService.normalizeTargetId user_id,
                 coach_id := PermissionService.normalizeTargetId coach_id,
                 permission_id := p.id,
                 assigned_by := some assigner.id }] })) ∧
      (∀ (e : PermissionService.AssignErr) (db2 : DB),
        PermissionService.assign_permission_by_id db permission_id assigner
            user_id coach_id = (Except.error e, db2) →
        db2 = db) := by
  intro db permission_id assigner user_id coach_id
  unfold PermissionService.assign_permission_by_id
  set u' := PermissionService.normalizeTargetId user_id with hu
  set c' := PermissionService.normalizeTargetId coach_id with hc
  by_cases hsame : u'.isNone = c'.isNone
  · refine ⟨fun _ => by simp [hsame], fun hne _ => absurd hsame hne,
      fun p hne _ _ => absurd hsame hne, fun p hne _ _ => absurd hsame hne, ?_⟩
    intro e db2 h
    simp only [hsame, beq_self_eq_true, if_true] at h
    exact (Prod.mk.injEq _ _ _ _ ▸ h).2.symm
  · have hsame' : (u'.isNone == c'.isNone) = false := by
      cases hu'' : u'.isNone <;> cases hc'' : c'.isNone <;>
        simp_all
    refine ⟨fun hcontra => absurd hcontra hsame, ?_, ?_, ?_, ?_⟩
    · intro _ hperm
      simp [hsame', hperm]
    · intro p _ hperm hhas
      simp [hsame', hperm, hhas]
    · intro p _ hperm hhas
      simp [hsame', hperm, hhas, UserPermissionRepository.assign_permission]
    · intro e db2 h
      simp only [hsame', Bool.false_eq_true, if_false] at h
      match hperm : PermissionRepository.get_by_id db permission_id with
      | none =>
          rw [hperm] at h
          exact (Prod.mk.injEq _ _ _ _ ▸ h).2.symm
      | some p =>
          rw [hperm] at h
          by_cases hhas : UserPermissionRepository.has_permission db permission_id u' c' = true
          · simp only [hhas, if_true] at h
            exact (Prod.mk.injEq _ _ _ _ ▸ h).2.symm
          · simp only [Bool.not_eq_true] at hhas
            simp only [hhas, Bool.false_eq_true, if_false] at h
            cases (Prod.mk.injEq _ _ _ _ ▸ h).1

/-- C8 witness: assigning permission 1 to user 2, who already holds it
in `exDb2`, fails with the Conflict error and leaves the database
unchanged. -/
theorem assign_permission_by_id_contract_witness :
    PermissionService.assign_permission_by_id exDb2 1 exAdmin (some 2) none =
      (Except.error (PermissionService.AssignErr.badRequest
        "Permission already assigned"), exDb2) :=
  (assign_permission_by_id_contract exDb2 1 exAdmin (some 2) none).2.2.1
    exPermDU (by decide) rfl rfl

/-- C10: in `assign_permission_by_id` and `revoke_permission_by_id`, a
target id equal to 0 is coerced to absent before the exactly-one-target
validation: a call with `user_id = 0` and a non-zero `coach_id` equals
the call targeting only the coach (and symmetrically); a call whose only
supplied target id is 0 is rejected as a validation error. -/
theorem zero_target_id_coerced_to_absent :
    (∀ (db : DB) (pid : Nat) (a : User) (c : Nat), c ≠ 0 →
        PermissionService.assign_permission_by_id db pid a (some 0) (some c) =
          PermissionService.assign_permission_by_id db pid a none (some c)) ∧
    (∀ (db : DB) (pid : Nat) (a : User) (u : Nat), u ≠ 0 →
        PermissionService.assign_permission_by_id db pid a (some u) (some 0) =
          PermissionService.assign_permission_by_id db pid a (some u) none) ∧
    (∀ (db : DB) (pid : Nat) (a : User),
        (PermissionService.assign_permission_by_id db pid a (some 0) none).1 =
          Except.error (PermissionService.AssignErr.badRequest
            "Provide exactly one of user_id or coach_id")) ∧
    (∀ (db : DB) (pid : Nat) (a : User),
        (PermissionService.assign_permission_by_id db pid a none (some 0)).1 =
          Except.error (PermissionService.AssignErr.badRequest
            "Provide exactly one of user_id or coach_id")) ∧
    (∀ (db : DB) (pid : Nat) (r : User) (c : Nat), c ≠ 0 →
        PermissionService.revoke_permission_by_id db pid r (some 0) (some c) =
          PermissionService.revoke_permission_by_id db pid r none (some c)) ∧
    (∀ (db : DB) (pid : Nat) (r : User) (u : Nat), u ≠ 0 →
        PermissionService.revoke_permission_by_id db pid r (some u) (some 0) =
          PermissionService.revoke_permission_by_id db pid r (some u) none) ∧
    (∀ (db : DB) (pid : Nat) (r : User),
        (PermissionService.revoke_permission_by_id db pid r (some 0) none).1 =
          Except.error (PermissionService.AssignErr.badRequest
            "Provide exactly one of user_id or coach_id")) ∧
    (∀ (db : DB) (pid : Nat) (r : User),
        (PermissionService.revoke_permission_by_id db pid r none (some 0)).1 =
          Except.error (PermissionService.AssignErr.badRequest
            "Provide exactly one of user_id or coach_id")) := by
  have hzero : PermissionService.normalizeTargetId (some 0) = none := rfl
  have hnonzero : ∀ n : Nat, n ≠ 0 →
      PermissionService.normalizeTargetId (some n) = some n := by
    intro n hn
    unfold PermissionService.normalizeTargetId
    simp [hn]
  refine ⟨?_, ?_, ?_, ?_, ?_, ?_, ?_, ?_⟩
  · intro db pid a c hc
    unfold PermissionService.assign_permission_by_id
    rw [hzero, hnonzero c hc]
    rfl
  · intro db pid a u hu
    unfold PermissionService.assign_permission_by_id
    rw [hzero, hnonzero u hu]
    rfl
  · intro db pid a
    unfold PermissionService.assign_permission_by_id
    rw [hzero]
    rfl
  · intro db pid a
    unfold PermissionService.assign_permission_by_id
    rw [hzero]
    rfl
  · intro db pid r hc hcc
    unfold PermissionService.revoke_permission_by_id
    rw [hzero, hnonzero hc hcc]
    rfl
  · intro db pid r hu huu
    unfold PermissionService.revoke_permission_by_id
    rw [hzero, hnonzero hu huu]
    rfl
  · intro db pid r
    unfold PermissionService.revoke_permission_by_id
    rw [hzero]
    rfl
  · intro db pid r
    unfold PermissionService.revoke_permission_by_id
    rw [hzero]
    rfl

/-- C10 witness: with permission 1 assigned to user 2 in `exDb2`, a
revoke call passing `user_id = 0` and `coach_id = 5` proceeds targeting
coach 5 (and fails with the not-assigned error, as coach 5 holds
nothing), exactly like the call passing only `coach_id = 5`; a call
whose only target id is 0 is the validation error. -/
theorem zero_target_id_coerced_to_absent_witness :
    PermissionService.revoke_permission_by_id exDb2 1 exAdmin (some 0) (some 5) =
      PermissionService.revoke_permission_by_id exDb2 1 exAdmin none (some 5) ∧
    (PermissionService.revoke_permission_by_id exDb2 1 exAdmin (some 0) (some 5)).1 =
      Except.error (PermissionService.AssignErr.badRequest
        "Permission not assigned to target") ∧
    (PermissionService.assign_permission_by_id exDb2 1 exAdmin (some 0) none).1 =
      Except.error (PermissionService.AssignErr.badRequest
        "Provide exactly one of user_id or coach_id") :=
  ⟨zero_target_id_coerced_to_absent.2.2.2.2.1 exDb2 1 exAdmin 5 (by decide),
   by rfl,
   zero_target_id_coerced_to_absent.2.2.1 exDb2 1 exAdmin⟩

/-- C9: authentication resolves the User table with strict precedence
over the Coach table.  When a User row with the username exists, the
outcome is decided entirely by that row's password check and active flag
— the coach store is never consulted (the result is unchanged under any
replacement of the coach table); the coach store is consulted only when
no User row with the username exists. -/
theorem authenticate_user_user_precedence :
    (∀ (verify : String → String → Bool) (db : DB)
        (username password : String) (u : User),
        UserRepository.get_by_username db username = some u →
        AuthService.authenticate_user verify db username password =
          (if verify password u.hashed_password && u.is_active then
            some (Principal.user u)
          else none)) ∧
    (∀ (verify : String → String → Bool) (db : DB)
        (username password : String) (cs : List Coach),
        (UserRepository.get_by_username db username).isSome = true →
        AuthService.authenticate_user verify db username password =
          AuthService.authenticate_user verify { db with coaches := cs }
            username password) ∧
    (∀ (verify : String → String → Bool) (db : DB) (username password : String),
        UserRepository.get_by_username db username = none →
        AuthService.authenticate_user verify db username password =
          (match CoachRepository.get_by_username db username with
           | none => none
           | some coach =>
               if verify password coach.password && coach.is_active then
                 some (Principal.coach coach)
               else none)) := by
  have huser : ∀ (verify : String → String → Bool) (db : DB)
      (username password : String) (u : User),
      UserRepository.get_by_username db username = some u →
      AuthService.authenticate_user verify db username password =
        (if verify password u.hashed_password && u.is_active then
          some (Principal.user u)
        else none) := by
    intro verify db username password u hfound
    unfold AuthService.authenticate_user
    rw [hfound]
    by_cases hv : verify password u.hashed_password <;>
      by_cases ha : u.is_active <;> simp [hv, ha]
  refine ⟨huser, ?_, ?_⟩
  · intro verify db username password cs hsome
    match hfound : UserRepository.get_by_username db username with
    | none => rw [hfound] at hsome; cases hsome
    | some u =>
        have hfound' : UserRepository.get_by_username { db with coaches := cs }
            username = some u := hfound
        rw [huser verify db username password u hfound,
          huser verify { db with coaches := cs } username password u hfound']
  · intro verify db username password hnone
    unfold AuthService.authenticate_user
    rw [hnone]
    match hc : CoachRepository.get_by_username db username with
    | none => simp
    | some coach =>
        by_cases hv : verify password coach.password <;>
          by_cases ha : coach.is_active <;> simp [hv, ha]

/-- A user and a coach sharing one username, where only the coach's
stored password matches the presented password `pw`.  Password checking
is modelled as string equality for this fixture. -/
def exDupUser : User :=
  { id := 4, username := "sam", hashed_password := "other",
    role := UserRole.user, is_active := true }

/-- The coach sharing `exDupUser`'s username with the matching password. -/
def exDupCoach : Coach :=
  { id := 5, username := "sam", password := "pw", is_active := true }

/-- Database holding both principals named `sam`. -/
def exDupDb : DB :=
  { users := [exDupUser], coaches := [exDupCoach], permissions := [],
    user_permissions := [], refresh_tokens := [] }

/-- C9 witness: with a User row named `sam` whose password does not
match, login as `sam` fails even though a Coach named `sam` with the
matching password exists. -/
theorem authenticate_user_user_precedence_witness :
    AuthService.authenticate_user (fun plain hashed => plain == hashed)
        exDupDb "sam" "pw" = none :=
  authenticate_user_user_precedence.1
    (fun plain hashed => plain == hashed) exDupDb "sam" "pw" exDupUser rfl

/-- `get_by_token` on a list whose first matching row was just marked
revoked returns that row with its flag set. -/
theorem find?_markRevokedFirst_self :
    ∀ (l : List RefreshToken) (t : String),
      (RefreshTokenRepository.markRevokedFirst l t).find? (fun r => r.token == t) =
        (l.find? (fun r => r.token == t)).map (fun r => { r with is_revoked := true })
  | [], _ => rfl
  | r :: rest, t => by
      by_cases h : r.token == t
      · simp [RefreshTokenRepository.markRevokedFirst, List.find?_cons, h]
      · simp only [RefreshTokenRepository.markRevokedFirst, h, Bool.false_eq_true,
          if_false, List.find?_cons]
        simp only [Bool.not_eq_true] at h
        simp [h, find?_markRevokedFirst_self rest t]

/-- Marking a token revoked does not change the token strings stored in
the list. -/
theorem markRevokedFirst_map_token :
    ∀ (l : List RefreshToken) (t : String),
      (RefreshTokenRepository.markRevokedFirst l t).map (fun r => r.token) =
        l.map (fun r => r.token)
  | [], _ => rfl
  | r :: rest, t => by
      by_cases h : r.token == t
      · simp [RefreshTokenRepository.markRevokedFirst, h]
      · simp only [RefreshTokenRepository.markRevokedFirst, h, Bool.false_eq_true,
          if_false, List.map_cons, List.cons.injEq, true_and]
        exact markRevokedFirst_map_token rest t

/-- A token row that is already revoked, plus a live one. -/
def exRevokedTok : RefreshToken :=
  { token := "t", user_id := some 1, coach_id := none,
    expires_at := 100, is_revoked := true }

/-- Database holding only the already-revoked token row. -/
def exRevDb : DB :=
  { users := [], coaches := [], permissions := [],
    user_permissions := [], refresh_tokens := [exRevokedTok] }

/-- C7 counterexample: `exRevDb` holds one token row `"t"` that is
already revoked; `revoke_refresh_token("t")` returns `true`, not the
`false` the claim requires for an already-revoked token. -/
theorem revoke_already_revoked_returns_true :
    RefreshTokenRepository.get_by_token exRevDb "t" = some exRevokedTok ∧
    exRevokedTok.is_revoked = true ∧
    (RefreshTokenRepository.revoke exRevDb "t").1 = true :=
  ⟨rfl, rfl, rfl⟩

/-- C7 amended: `revoke_refresh_token` (and the logout built on it)
marks the matching token row as revoked and returns a boolean: it
returns `true` exactly when a row with that token string exists —
already-revoked rows included — and `false` when no matching token
exists; in either case the call completes normally (revoking an unknown
or already-revoked token is never an error), and a `false` return leaves
the store unchanged. -/
theorem revoke_refresh_token_behavior :
    (∀ (db : DB) (t : String),
        (RefreshTokenRepository.revoke db t).1 = true ↔
          ∃ r ∈ db.refresh_tokens, r.token = t) ∧
    (∀ (db : DB) (t : String) (r : RefreshToken),
        RefreshTokenRepository.get_by_token db t = some r →
        RefreshTokenRepository.get_by_token
            (RefreshTokenRepository.revoke db t).2 t =
          some { r with is_revoked := true }) ∧
    (∀ (db : DB) (t : String),
        (RefreshTokenRepository.revoke db t).1 = false →
        (RefreshTokenRepository.revoke db t).2 = db) ∧
    (∀ (db : DB) (t : String),
        AuthService.logout db t = RefreshTokenRepository.revoke db t) := by
  refine ⟨?_, ?_, ?_, fun _ _ => rfl⟩
  · intro db t
    unfold RefreshTokenRepository.revoke
    match h : RefreshTokenRepository.get_by_token db t with
    | some r =>
        simp only [true_iff]
        have := List.mem_of_find?_eq_some h
        have hp := List.find?_some h
        exact ⟨r, this, by simpa using hp⟩
    | none =>
        refine iff_of_false ?_ ?_
        · simp
        rintro ⟨r, hr, hrt⟩
        unfold RefreshTokenRepository.get_by_token at h
        rw [List.find?_eq_none] at h
        have hx := h r hr
        simp only [beq_iff_eq] at hx
        exact hx hrt
  · intro db t r h
    unfold RefreshTokenRepository.revoke
    rw [h]
    show RefreshTokenRepository.get_by_token
        { db with refresh_tokens :=
            RefreshTokenRepository.markRevokedFirst db.refresh_tokens t } t = _
    unfold RefreshTokenRepository.get_by_token at h ⊢
    rw [find?_markRevokedFirst_self, h]
    rfl
  · intro db t h
    unfold RefreshTokenRepository.revoke at h ⊢
    match hg : RefreshTokenRepository.get_by_token db t with
    | some r =>
        rw [hg] at h
        simp at h
    | none => rfl

/-- C7 witness: revoking the known token `"t"` in `exRevDb` keeps a row
for `"t"` with the revoked flag set, and logout agrees with revoke. -/
theorem revoke_refresh_token_behavior_witness :
    RefreshTokenRepository.get_by_token
        (RefreshTokenRepository.revoke exRevDb "t").2 "t" =
      some { exRevokedTok with is_revoked := true } ∧
    AuthService.logout exRevDb "t" = RefreshTokenRepository.revoke exRevDb "t" :=
  ⟨revoke_refresh_token_behavior.2.1 exRevDb "t" exRevokedTok rfl,
   revoke_refresh_token_behavior.2.2.2 exRevDb "t"⟩

/-- Every row of a marked list carries a token string already present in
the original list. -/
theorem mem_markRevokedFirst_token (l : List RefreshToken) (t : String) :
    ∀ x ∈ RefreshTokenRepository.markRevokedFirst l t, ∃ r ∈ l, r.token = x.token := by
  intro x hx
  have hmem : x.token ∈ (RefreshTokenRepository.markRevokedFirst l t).map
      (fun r => r.token) := List.mem_map_of_mem _ hx
  rw [markRevokedFirst_map_token] at hmem
  obtain ⟨r, hr, hrt⟩ := List.mem_map.mp hmem
  exact ⟨r, hr, hrt⟩

/-- A token string absent from the original list is still absent after
marking some token revoked. -/
theorem find?_markRevokedFirst_fresh (l : List RefreshToken) (t nt : String)
    (hfresh : ∀ r ∈ l, r.token ≠ nt) :
    (RefreshTokenRepository.markRevokedFirst l t).find? (fun r => r.token == nt) = none := by
  rw [List.find?_eq_none]
  intro x hx
  obtain ⟨r, hr, hrt⟩ := mem_markRevokedFirst_token l t x hx
  simp only [beq_iff_eq]
  exact hrt ▸ hfresh r hr

/-- Successful user-principal refresh: the presented token row is live,
its user exists and is active; the call rotates the store. -/
theorem refresh_tokens_ok_user (db : DB) (now : Nat) (T nt : String)
    (r : RefreshToken) (uid : Nat) (u : User)
    (hg : RefreshTokenRepository.get_by_token db T = some r)
    (hrev : r.is_revoked = false) (hexp : ¬ r.expires_at < now)
    (hu : r.user_id = some uid)
    (hlu : UserRepository.get_by_id db uid = some u)
    (hact : u.is_active = true) :
    AuthService.refresh_tokens db now T nt =
      Except.ok (nt,
        { db with refresh_tokens :=
            RefreshTokenRepository.markRevokedFirst db.refresh_tokens T ++
              [{ token := nt, user_id := some uid, coach_id := none,
                 expires_at := now + REFRESH_TOKEN_EXPIRE_DAYS,
                 is_revoked := false }] }) := by
  unfold AuthService.refresh_tokens
  rw [hg]
  simp [hrev, hexp, hu, hlu, hact, RefreshTokenRepository.revoke, hg,
    RefreshTokenRepository.create]

/-- Successful coach-principal refresh. -/
theorem refresh_tokens_ok_coach (db : DB) (now : Nat) (T nt : String)
    (r : RefreshToken) (cid : Nat) (c : Coach)
    (hg : RefreshTokenRepository.get_by_token db T = some r)
    (hrev : r.is_revoked = false) (hexp : ¬ r.expires_at < now)
    (hu : r.user_id = none) (hc : r.coach_id = some cid)
    (hlc : CoachRepository.get_by_id db cid = some c)
    (hact : c.is_active = true) :
    AuthService.refresh_tokens db now T nt =
      Except.ok (nt,
        { db with refresh_tokens :=
            RefreshTokenRepository.markRevokedFirst db.refresh_tokens T ++
              [{ token := nt, user_id := none, coach_id := some cid,
                 expires_at := now + REFRESH_TOKEN_EXPIRE_DAYS,
                 is_revoked := false }] }) := by
  unfold AuthService.refresh_tokens
  rw [hg]
  simp [hrev, hexp, hu, hc, hlc, hact, RefreshTokenRepository.revoke, hg,
    RefreshTokenRepository.create]

/-- Inversion of a successful refresh: the presented token row was live
and unexpired, its principal exists and is active, the returned token is
the freshly generated string, and the resulting store is the marked old
list plus the one new row. -/
theorem refresh_tokens_ok_inv (db : DB) (now : Nat) (T nt T' : String) (db' : DB)
    (hok : AuthService.refresh_tokens db now T nt = Except.ok (T', db')) :
    T' = nt ∧
    ∃ r, RefreshTokenRepository.get_by_token db T = some r ∧
      r.is_revoked = false ∧ ¬ r.expires_at < now ∧
      ((∃ uid u, r.user_id = some uid ∧
          UserRepository.get_by_id db uid = some u ∧ u.is_active = true ∧
          db' = { db with refresh_tokens :=
              RefreshTokenRepository.markRevokedFirst db.refresh_tokens T ++
                [{ token := nt, user_id := some uid, coach_id := none,
                   expires_at := now + REFRESH_TOKEN_EXPIRE_DAYS,
                   is_revoked := false }] }) ∨
       (∃ cid c, r.user_id = none ∧ r.coach_id = some cid ∧
          CoachRepository.get_by_id db cid = some c ∧ c.is_active = true ∧
          db' = { db with refresh_tokens :=
              RefreshTokenRepository.markRevokedFirst db.refresh_tokens T ++
                [{ token := nt, user_id := none, coach_id := some cid,
                   expires_at := now + REFRESH_TOKEN_EXPIRE_DAYS,
                   is_revoked := false }] })) := by
  unfold AuthService.refresh_tokens at hok
  cases hg : RefreshTokenRepository.get_by_token db T with
  | none => rw [hg] at hok; simp at hok
  | some r =>
      rw [hg] at hok
      by_cases hrev : r.is_revoked = true
      · simp [hrev] at hok
      · simp only [Bool.not_eq_true] at hrev
        by_cases hexp : r.expires_at < now
        · simp [hrev, hexp] at hok
        · cases hu : r.user_id with
          | some uid =>
              cases hlu : UserRepository.get_by_id db uid with
              | none => simp [hrev, hexp, hu, hlu] at hok
              | some u =>
                  by_cases hact : u.is_active = true
                  · simp only [hrev, hexp, hu, hlu, hact,
                      RefreshTokenRepository.revoke, hg,
                      RefreshTokenRepository.create, Bool.false_eq_true, if_false,
                      Bool.not_true, Option.isNone_some, Option.isSome_some,
                      Option.isNone_none, Option.isSome_none, Bool.false_and,
                      Bool.and_false, Bool.true_and, Bool.and_true,
                      Bool.or_false, Bool.false_or, Except.ok.injEq,
                      Prod.mk.injEq] at hok
                    obtain ⟨h1, h2⟩ := hok
                    exact ⟨h1.symm, r, rfl, hrev, hexp,
                      Or.inl ⟨uid, u, hu, hlu, hact, h2.symm⟩⟩
                  · simp [hrev, hexp, hu, hlu, hact] at hok
          | none =>
              cases hc : r.coach_id with
              | none => simp [hrev, hexp, hu, hc] at hok
              | some cid =>
                  cases hlc : CoachRepository.get_by_id db cid with
                  | none => simp [hrev, hexp, hu, hc, hlc] at hok
                  | some c =>
                      by_cases hact : c.is_active = true
                      · simp only [hrev, hexp, hu, hc, hlc, hact,
                          RefreshTokenRepository.revoke, hg,
                          RefreshTokenRepository.create, Bool.false_eq_true, if_false,
                          Bool.not_true, Option.isNone_some, Option.isSome_some,
                          Option.isNone_none, Option.isSome_none, Bool.false_and,
                          Bool.and_false, Bool.true_and, Bool.and_true,
                          Bool.or_false, Bool.false_or, Except.ok.injEq,
                          Prod.mk.injEq] at hok
                        obtain ⟨h1, h2⟩ := hok
                        exact ⟨h1.symm, r, rfl, hrev, hexp,
                          Or.inr ⟨cid, c, hu, hc, hlc, hact, h2.symm⟩⟩
                      · simp [hrev, hexp, hu, hc, hlc, hact] at hok

/-- C6: refresh tokens are single-use for renewal: a successful refresh
with token `T` revokes `T` and issues a fresh token `T'`; afterwards any
refresh presenting `T` fails with Unauthenticated while `T'` remains
usable; and a refresh with an unknown, revoked, or expired token never
succeeds. -/
theorem refresh_tokens_rotation :
    (∀ (db : DB) (now : Nat) (T nt : String),
        RefreshTokenRepository.get_by_token db T = none →
        AuthService.refresh_tokens db now T nt =
          Except.error "Invalid refresh token") ∧
    (∀ (db : DB) (now : Nat) (T nt : String) (r : RefreshToken),
        RefreshTokenRepository.get_by_token db T = some r →
        r.is_revoked = true →
        AuthService.refresh_tokens db now T nt =
          Except.error "Invalid refresh token") ∧
    (∀ (db : DB) (now : Nat) (T nt : String) (r : RefreshToken),
        RefreshTokenRepository.get_by_token db T = some r →
        r.is_revoked = false → r.expires_at < now →
        AuthService.refresh_tokens db now T nt =
          Except.error "Refresh token expired") ∧
    (∀ (db : DB) (now : Nat) (T nt T' : String) (db' : DB),
        AuthService.refresh_tokens db now T nt = Except.ok (T', db') →
        (∀ r ∈ db.refresh_tokens, r.token ≠ nt) →
        T' = nt ∧
        (∀ r', RefreshTokenRepository.get_by_token db' T = some r' →
          r'.is_revoked = true) ∧
        (∀ (now2 : Nat) (nt2 : String),
          AuthService.refresh_tokens db' now2 T nt2 =
            Except.error "Invalid refresh token") ∧
        (∀ nt2 : String, ∃ out,
          AuthService.refresh_tokens db' now T' nt2 = Except.ok out)) := by
  refine ⟨?_, ?_, ?_, ?_⟩
  · intro db now T nt h
    simp [AuthService.refresh_tokens, h]
  · intro db now T nt r h hrev
    simp [AuthService.refresh_tokens, h, hrev]
  · intro db now T nt r h hrev hexp
    simp [AuthService.refresh_tokens, h, hrev, hexp]
  · intro db now T nt T' db' hok hfresh
    obtain ⟨hT', r, hg, hrev, hexp, hcase⟩ :=
      refresh_tokens_ok_inv db now T nt T' db' hok
    have hmarked : (RefreshTokenRepository.markRevokedFirst db.refresh_tokens T).find?
        (fun x => x.token == T) = some { r with is_revoked := true } := by
      rw [find?_markRevokedFirst_self]
      unfold RefreshTokenRepository.get_by_token at hg
      rw [hg]
      rfl
    have hfreshT : (RefreshTokenRepository.markRevokedFirst db.refresh_tokens T).find?
        (fun x => x.token == nt) = none :=
      find?_markRevokedFirst_fresh db.refresh_tokens T nt hfresh
    rcases hcase with ⟨uid, u, hu, hlu, hact, hdb'⟩ | ⟨cid, c, hun, hc, hlc, hact, hdb'⟩
    · subst hdb'
      have hlookT : RefreshTokenRepository.get_by_token
          { db with refresh_tokens :=
              RefreshTokenRepository.markRevokedFirst db.refresh_tokens T ++
                [{ token := nt, user_id := some uid, coach_id := none,
                   expires_at := now + REFRESH_TOKEN_EXPIRE_DAYS,
                   is_revoked := false }] } T =
          some { r with is_revoked := true } := by
        unfold RefreshTokenRepository.get_by_token
        rw [List.find?_append, hmarked]
        rfl
      have hlooknt : RefreshTokenRepository.get_by_token
          { db with refresh_tokens :=
              RefreshTokenRepository.markRevokedFirst db.refresh_tokens T ++
                [{ token := nt, user_id := some uid, coach_id := none,
                   expires_at := now + REFRESH_TOKEN_EXPIRE_DAYS,
                   is_revoked := false }] } nt =
          some { token := nt, user_id := some uid, coach_id := none,
                 expires_at := now + REFRESH_TOKEN_EXPIRE_DAYS,
                 is_revoked := false } := by
        unfold RefreshTokenRepository.get_by_token
        rw [List.find?_append, hfreshT]
        simp
      refine ⟨hT', ?_, ?_, ?_⟩
      · intro r' h
        rw [hlookT] at h
        rw [← Option.some.inj h]
      · intro now2 nt2
        unfold AuthService.refresh_tokens
        rw [hlookT]
        simp
      · intro nt2
        rw [hT']
        exact ⟨_, refresh_tokens_ok_user _ now nt nt2 _ uid u hlooknt rfl
          (Nat.not_lt.mpr (Nat.le_add_right now REFRESH_TOKEN_EXPIRE_DAYS))
          rfl hlu hact⟩
    · subst hdb'
      have hlookT : RefreshTokenRepository.get_by_token
          { db with refresh_tokens :=
              RefreshTokenRepository.markRevokedFirst db.refresh_tokens T ++
                [{ token := nt, user_id := none, coach_id := some cid,
                   expires_at := now + REFRESH_TOKEN_EXPIRE_DAYS,
                   is_revoked := false }] } T =
          some { r with is_revoked := true } := by
        unfold RefreshTokenRepository.get_by_token
        rw [List.find?_append, hmarked]
        rfl
      have hlooknt : RefreshTokenRepository.get_by_token
          { db with refresh_tokens :=
              RefreshTokenRepository.markRevokedFirst db.refresh_tokens T ++
                [{ token := nt, user_id := none, coach_id := some cid,
                   expires_at := now + REFRESH_TOKEN_EXPIRE_DAYS,
                   is_revoked := false }] } nt =
          some { token := nt, user_id := none, coach_id := some cid,
                 expires_at := now + REFRESH_TOKEN_EXPIRE_DAYS,
                 is_revoked := false } := by
        unfold RefreshTokenRepository.get_by_token
        rw [List.find?_append, hfreshT]
        simp
      refine ⟨hT', ?_, ?_, ?_⟩
      · intro r' h
        rw [hlookT] at h
        rw [← Option.some.inj h]
      · intro now2 nt2
        unfold AuthService.refresh_tokens
        rw [hlookT]
        simp
      · intro nt2
        rw [hT']
        exact ⟨_, refresh_tokens_ok_coach _ now nt nt2 _ cid c hlooknt rfl
          (Nat.not_lt.mpr (Nat.le_add_right now REFRESH_TOKEN_EXPIRE_DAYS))
          rfl rfl hlc hact⟩

/-- An active user owning one live refresh token `T0`. -/
def exRotUser : User :=
  { id := 1, username := "bob", hashed_password := "h",
    role := UserRole.user, is_active := true }

/-- Database for the rotation witness: one live token `T0`. -/
def exRotDb : DB :=
  { users := [exRotUser], coaches := [], permissions := [],
    user_permissions := [],
    refresh_tokens :=
      [{ token := "T0", user_id := some 1, coach_id := none,
         expires_at := 100, is_revoked := false }] }

/-- The database after refreshing `T0` at time 10 into `T1`: `T0` is
revoked and `T1` is live until `10 + REFRESH_TOKEN_EXPIRE_DAYS`. -/
def exRotDb' : DB :=
  { users := [exRotUser], coaches := [], permissions := [],
    user_permissions := [],
    refresh_tokens :=
      [{ token := "T0", user_id := some 1, coach_id := none,
         expires_at := 100, is_revoked := true },
       { token := "T1", user_id := some 1, coach_id := none,
         expires_at := 17, is_revoked := false }] }

/-- C6 witness: refreshing the live token `T0` succeeds and yields `T1`;
a second refresh presenting `T0` fails with the Unauthenticated error,
while presenting `T1` succeeds. -/
theorem refresh_tokens_rotation_witness :
    AuthService.refresh_tokens exRotDb 10 "T0" "T1" =
      Except.ok ("T1", exRotDb') ∧
    AuthService.refresh_tokens exRotDb' 11 "T0" "T2" =
      Except.error "Invalid refresh token" ∧
    (∃ out, AuthService.refresh_tokens exRotDb' 10 "T1" "T2" = Except.ok out) :=
  ⟨rfl,
   (refresh_tokens_rotation.2.2.2 exRotDb 10 "T0" "T1" "T1" exRotDb'
      (by rfl) (by decide)).2.2.1 11 "T2",
   (refresh_tokens_rotation.2.2.2 exRotDb 10 "T0" "T1" "T1" exRotDb'
      (by rfl) (by decide)).2.2.2 "T2"⟩

end Bafl
